import Mathlib

/-!
Verification of the siglot signal/slot library (src/siglot.h).

The embedding models the header's classes as explicit state:
- `ListenerState` is the data of a `Slot` (a `ListenerInterface` with a free
  function callback): the inherited `active` flag, the raw `signal` pointer
  (`none` models `nullptr`; a `some sid` may dangle after the signal died),
  and the `callback` function pointer (an opaque identifier, `none` models
  `nullptr`).
- `SignalState` is the data of a `Signal`: the inherited `SlotSet` member
  `slots` (a `std::set` of subscriber pointers, modelled as a `Finset` of
  listener identities) and the public payload `data` (opaque, a `Nat`).
- `World` is the heap: partial maps from identities (pointer values) to the
  live objects; `none` means the object at that identity was destroyed or
  never created.

Operations mirror the C++ member functions and return `Option World`:
`none` marks undefined behaviour (calling a method of a destroyed object or
dereferencing a pointer to a destroyed object).  `std::set` iteration order
is pointer order, modelled as ascending identity order.
-/

namespace Siglot

/-- State of a `Slot<T>` object: the `CallbackInterface` flag `active`, the
`ListenerInterface` pointer `signal`, and the `Slot` member `callback`. -/
structure ListenerState where
  active : Bool
  signal : Option Nat
  callback : Option Nat
deriving DecidableEq, Repr

/-- State of a `Signal<T>` object: the `SlotSet` member `slots` and the
public payload member `data`. -/
structure SignalState where
  slots : Finset Nat
  data : Nat
deriving DecidableEq

/-- The heap: live signals and listeners, addressed by identity. -/
@[ext] structure World where
  signals : Nat → Option SignalState
  listeners : Nat → Option ListenerState

/-- Replace the signal stored at identity `sid`. -/
def World.setSignal (w : World) (sid : Nat) (S : SignalState) : World :=
  { w with signals := fun i => if i = sid then some S else w.signals i }

/-- Replace the listener stored at identity `lid`. -/
def World.setListener (w : World) (lid : Nat) (L : ListenerState) : World :=
  { w with listeners := fun i => if i = lid then some L else w.listeners i }

/-- Destroy (deallocate) the signal at identity `sid`. -/
def World.killSignal (w : World) (sid : Nat) : World :=
  { w with signals := fun i => if i = sid then none else w.signals i }

/-- Destroy (deallocate) the listener at identity `lid`. -/
def World.killListener (w : World) (lid : Nat) : World :=
  { w with listeners := fun i => if i = lid then none else w.listeners i }

/-- SlotSet::count — `slots.size()`. -/
def SlotSet.count (S : SignalState) : Nat := S.slots.card

/-- SlotSet::_subscribe — `slots.insert(s)`. -/
def SlotSet._subscribe (S : SignalState) (l : Nat) : SignalState :=
  { S with slots := insert l S.slots }

/-- SlotSet::_unsubsribe [sic] — `slots.erase(s)`. -/
def SlotSet._unsubsribe (S : SignalState) (l : Nat) : SignalState :=
  { S with slots := S.slots.erase l }

/-- ListenerInterface::_is_active — `active && signal`.  (The C++ also
writes the result back into the `mutable` flag; the written value equals
the value every later read `active && signal` produces, so the write-back
is not separately modelled.) -/
def ListenerInterface._is_active (L : ListenerState) : Bool :=
  L.active && L.signal.isSome

/-- Abstraction of the spec's `attached_signal : optional reference`: the
pair (`active`, `signal`) read through `_is_active`; `none` when inactive. -/
def ListenerState.attachedSignal (L : ListenerState) : Option Nat :=
  if L.active then L.signal else none

/-- ListenerInterface::unsubscribe on listener `lid`:
`if (_is_active()) signal->_unsubsribe(this); _deactivate(); signal = nullptr;`.
`none` when `lid` is dead, or when `signal` dangles while `_is_active()`
holds (the `->` would dereference a destroyed signal). -/
def ListenerInterface.unsubscribe (w : World) (lid : Nat) : Option World :=
  match w.listeners lid with
  | none => none
  | some L =>
    if ListenerInterface._is_active L then
      match L.signal with
      | none => none
      | some sid =>
        match w.signals sid with
        | none => none
        | some S =>
            some ((w.setSignal sid (SlotSet._unsubsribe S lid)).setListener lid
              { L with active := false, signal := none })
    else
      some (w.setListener lid { L with active := false, signal := none })

/-- ListenerInterface::subscribe on listener `lid` with argument `&S_sid`:
`signal = s; s->_subscribe(this); active = true;`.  Note: it does not
detach the listener from a previously attached signal first. -/
def ListenerInterface.subscribe (w : World) (lid sid : Nat) : Option World :=
  match w.listeners lid, w.signals sid with
  | some L, some S =>
      some ((w.setListener lid { L with signal := some sid, active := true }).setSignal sid
        (SlotSet._subscribe S lid))
  | _, _ => none

/-- Slot::is_active — `callback && this->_is_active()`. -/
def Slot.is_active (L : ListenerState) : Bool :=
  L.callback.isSome && ListenerInterface._is_active L

/-- Signal::clear on signal `sid`:
`for (auto slot : slots) slot->_deactivate(); slots.clear();`.
Each subscriber's `active` flag is set to `false`; its `signal` pointer is
NOT reset (it keeps pointing at `sid`).  `none` when `sid` is dead or some
stored subscriber pointer dangles (the `->_deactivate()` would be UB). -/
def Signal.clear (w : World) (sid : Nat) : Option World :=
  match w.signals sid with
  | none => none
  | some S =>
    if ∀ l ∈ S.slots, (w.listeners l).isSome then
      some { w with
        listeners := fun i =>
          if i ∈ S.slots then (w.listeners i).map (fun L => { L with active := false })
          else w.listeners i,
        signals := fun i => if i = sid then some { S with slots := ∅ } else w.signals i }
    else none

/-- Signal::~Signal — `clear()`, then the object is deallocated. -/
def Signal.destroy (w : World) (sid : Nat) : Option World :=
  (Signal.clear w sid).map (fun w1 => w1.killSignal sid)

/-- Signal::invoke on signal `sid`:
`for (auto slot : slots) (*slot)(data);` — iterates the whole subscriber
set in pointer (identity) order, with no activity check.  The result is the
unchanged world paired with the list of dispatched calls, each call
recording (listener identity, its `callback` pointer — `none` is a call
through a null function pointer —, the payload passed).  `none` when `sid`
is dead or a stored subscriber pointer dangles. -/
def Signal.invoke (w : World) (sid : Nat) :
    Option (World × List (Nat × Option Nat × Nat)) :=
  match w.signals sid with
  | none => none
  | some S =>
    if ∀ l ∈ S.slots, (w.listeners l).isSome then
      some (w, (S.slots.sort (· ≤ ·)).map
        (fun l => (l, ((w.listeners l).bind ListenerState.callback, S.data))))
    else none

/-- Signal copy constructor `Signal(const self&) {}` — the body is empty,
so the new object's members are default-constructed: empty slot set,
default payload. -/
def Signal.copyCtor (_other : SignalState) : SignalState :=
  { slots := ∅, data := 0 }

/-- Signal copy assignment `operator=(const self&) {}` — empty body, the
destination's members are untouched. -/
def Signal.copyAssign (dest _other : SignalState) : SignalState := dest

/-- Signal::copy → SlotSet::_copy: `if (other != this) slots = other->slots;`
replaces the destination's subscriber set by the source's; `data` and all
listeners are untouched. -/
def Signal.copy (w : World) (destId srcId : Nat) : Option World :=
  match w.signals destId, w.signals srcId with
  | some D, some Ssrc =>
      some (if srcId = destId then w else w.setSignal destId { D with slots := Ssrc.slots })
  | _, _ => none

/-- Slot::copy on `destId` from `srcId`:
`if (&other != this && other.is_active()) { callback = other.callback; this->_copy(&other); }`
where ListenerInterface::_copy re-checks `other->_is_active()` (implied by
`is_active`) and calls `subscribe(other->signal)`. -/
def Slot.copyFrom (w : World) (destId srcId : Nat) : Option World :=
  match w.listeners destId, w.listeners srcId with
  | some D, some Lsrc =>
    if destId = srcId then some w
    else if Slot.is_active Lsrc then
      match Lsrc.signal with
      | some sid =>
          ListenerInterface.subscribe
            (w.setListener destId { D with callback := Lsrc.callback }) destId sid
      | none => none
    else some w
  | _, _ => none

/-- Slot copy constructor `Slot(const self& other) { clear(); copy(other); }`:
the fresh object after `clear()` is `⟨false, none, none⟩` (the base
constructor sets `active = false`, and `clear` nulls `signal` and
`callback`); `destId` must be a fresh identity. -/
def Slot.copyCtor (w : World) (destId srcId : Nat) : Option World :=
  if (w.listeners destId).isSome then none
  else Slot.copyFrom (w.setListener destId ⟨false, none, none⟩) destId srcId

/-- Slot copy assignment `operator=(const self& other) { copy(other); }` —
no `clear()` first. -/
def Slot.copyAssign (w : World) (destId srcId : Nat) : Option World :=
  Slot.copyFrom w destId srcId

/-- Slot::clear — `unsubscribe(); callback = nullptr;`. -/
def Slot.clear (w : World) (lid : Nat) : Option World :=
  (ListenerInterface.unsubscribe w lid).map (fun w1 =>
    match w1.listeners lid with
    | some L => w1.setListener lid { L with callback := none }
    | none => w1)

/-- Slot::~Slot — `clear()`, then the object is deallocated. -/
def Slot.destroy (w : World) (lid : Nat) : Option World :=
  (Slot.clear w lid).map (fun w1 => w1.killListener lid)

/-- The attachment-symmetry invariant of the spec: for every live listener
L and live signal S, `L.attached_signal = some S` iff L's identity is in
S's subscriber set. -/
def Invariant (w : World) : Prop :=
  ∀ lid L, w.listeners lid = some L → ∀ sid S, w.signals sid = some S →
    (L.attachedSignal = some sid ↔ lid ∈ S.slots)

/-- Partial map with entries at identities 0 and 1 only. -/
def tbl2 {α : Type} (a b : Option α) : Nat → Option α :=
  fun n => if n = 0 then a else if n = 1 then b else none

/-- Example heap: listener 0 (bound to callback 5) attached to signal 0;
signal 1 has no subscribers. -/
def wPair : World :=
  { signals := tbl2 (some ⟨{0}, 0⟩) (some ⟨∅, 0⟩),
    listeners := tbl2 (some ⟨true, some 0, some 5⟩) none }

/-- Example heap: listeners 0 (callback 5) and 1 (callback 6) both attached
to signal 0, whose payload is 7. -/
def wTwo : World :=
  { signals := tbl2 (some ⟨{0, 1}, 7⟩) none,
    listeners := tbl2 (some ⟨true, some 0, some 5⟩) (some ⟨true, some 0, some 6⟩) }

/-- Example heap: listener 0 is subscribed to signal 0 but its callback was
never bound (`callback = nullptr`); the payload is 42. -/
def wUnbound : World :=
  { signals := tbl2 (some ⟨{0}, 42⟩) none,
    listeners := tbl2 (some ⟨true, some 0, none⟩) none }

/-- Example heap: listener 0 is bound (callback 7) but detached; listener 1
is bound (callback 5) and attached to signal 0. -/
def wAssign : World :=
  { signals := tbl2 (some ⟨{1}, 0⟩) none,
    listeners := tbl2 (some ⟨false, none, some 7⟩) (some ⟨true, some 0, some 5⟩) }

/-- Example heap: one detached bound listener and one empty signal. -/
def wFree : World :=
  { signals := tbl2 (some ⟨∅, 0⟩) none,
    listeners := tbl2 (some ⟨false, none, some 5⟩) none }

section Lemmas

/-- Projections of the heap-update helpers. -/
@[simp] theorem World.setSignal_signals (w : World) (sid : Nat) (S : SignalState) (i : Nat) :
    (w.setSignal sid S).signals i = if i = sid then some S else w.signals i := rfl

@[simp] theorem World.setSignal_listeners (w : World) (sid : Nat) (S : SignalState) :
    (w.setSignal sid S).listeners = w.listeners := rfl

@[simp] theorem World.setListener_listeners (w : World) (lid : Nat) (L : ListenerState) (i : Nat) :
    (w.setListener lid L).listeners i = if i = lid then some L else w.listeners i := rfl

@[simp] theorem World.setListener_signals (w : World) (lid : Nat) (L : ListenerState) :
    (w.setListener lid L).signals = w.signals := rfl

@[simp] theorem World.killSignal_signals (w : World) (sid i : Nat) :
    (w.killSignal sid).signals i = if i = sid then none else w.signals i := rfl

@[simp] theorem World.killSignal_listeners (w : World) (sid : Nat) :
    (w.killSignal sid).listeners = w.listeners := rfl

@[simp] theorem World.killListener_listeners (w : World) (lid i : Nat) :
    (w.killListener lid).listeners i = if i = lid then none else w.listeners i := rfl

@[simp] theorem World.killListener_signals (w : World) (lid : Nat) :
    (w.killListener lid).signals = w.signals := rfl

/-- Rewriting a listener slot with the value it already holds is the
identity on the heap. -/
theorem World.setListener_eq_self (w : World) (lid : Nat) (L : ListenerState)
    (h : w.listeners lid = some L) : w.setListener lid L = w := by
  ext i
  · rfl
  · simp only [World.setListener_listeners]
    split
    · next hi => rw [hi, h]
    · rfl

/-- A listener that fails `_is_active` has no attached signal. -/
theorem attachedSignal_eq_none (L : ListenerState)
    (h : ListenerInterface._is_active L = false) : L.attachedSignal = none := by
  unfold ListenerInterface._is_active at h
  unfold ListenerState.attachedSignal
  cases ha : L.active
  · simp
  · cases hs : L.signal
    · simp [hs]
    · rw [ha, hs] at h
      simp at h

/-- Characterisation of `attachedSignal = some sid`. -/
theorem attachedSignal_eq_some (L : ListenerState) (sid : Nat) :
    L.attachedSignal = some sid ↔ L.active = true ∧ L.signal = some sid := by
  unfold ListenerState.attachedSignal
  cases ha : L.active <;> simp

/-- Evaluation of `Signal.invoke` on a live signal whose stored subscriber
pointers are all valid. -/
theorem Signal.invoke_eq (w : World) (sid : Nat) (S : SignalState)
    (hS : w.signals sid = some S) (hlive : ∀ l ∈ S.slots, (w.listeners l).isSome) :
    Signal.invoke w sid = some (w, (S.slots.sort (· ≤ ·)).map
      (fun l => (l, ((w.listeners l).bind ListenerState.callback, S.data)))) := by
  unfold Signal.invoke
  rw [hS]
  exact if_pos hlive

/-- Evaluation of `unsubscribe` on a listener attached to a live signal. -/
theorem unsubscribe_active_eq (w : World) (lid : Nat) (L : ListenerState) (sid : Nat)
    (S : SignalState)
    (hL : w.listeners lid = some L) (hact : L.active = true) (hsig : L.signal = some sid)
    (hS : w.signals sid = some S) :
    ListenerInterface.unsubscribe w lid
      = some ((w.setSignal sid (SlotSet._unsubsribe S lid)).setListener lid
          ⟨false, none, L.callback⟩) := by
  have h1 : ListenerInterface._is_active L = true := by
    unfold ListenerInterface._is_active
    rw [hact, hsig]
    rfl
  simp [ListenerInterface.unsubscribe, hL, h1, hsig, hS]

/-- Evaluation of `unsubscribe` on a listener that is not `_is_active`:
only the listener's own fields change. -/
theorem unsubscribe_inactive_eq (w : World) (lid : Nat) (L : ListenerState)
    (hL : w.listeners lid = some L)
    (hact : ListenerInterface._is_active L = false) :
    ListenerInterface.unsubscribe w lid
      = some (w.setListener lid ⟨false, none, L.callback⟩) := by
  simp [ListenerInterface.unsubscribe, hL, hact]

/-- Evaluation of `Signal.clear` on a live signal with valid subscriber
pointers, characterised through the heap projections. -/
theorem clear_eq (w : World) (sid : Nat) (S : SignalState)
    (hS : w.signals sid = some S)
    (hall : ∀ l ∈ S.slots, (w.listeners l).isSome) :
    ∃ wc, Signal.clear w sid = some wc
      ∧ (∀ i, wc.signals i = if i = sid then some { S with slots := ∅ } else w.signals i)
      ∧ (∀ i, wc.listeners i = if i ∈ S.slots
          then (w.listeners i).map (fun L => { L with active := false })
          else w.listeners i) := by
  refine ⟨{ w with
      listeners := fun i => if i ∈ S.slots
        then (w.listeners i).map (fun L => { L with active := false })
        else w.listeners i,
      signals := fun i => if i = sid then some { S with slots := ∅ } else w.signals i },
    ?_, fun i => rfl, fun i => rfl⟩
  unfold Signal.clear
  rw [hS]
  exact if_pos hall

end Lemmas

/-- Claim C7: removing an absent reference from a signal's slot set is a
no-op, and `unsubscribe()` on a listener that is not `_is_active` touches
no signal's subscriber set, leaves the listener's observable state
(attached signal, activity, callback) unchanged, and a second call returns
the very same heap. -/
theorem C7_unsubscribe_silent_noop :
    (∀ (S : SignalState) (l : Nat), l ∉ S.slots → SlotSet._unsubsribe S l = S)
    ∧ (∀ (w : World) (lid : Nat) (L : ListenerState),
        w.listeners lid = some L → ListenerInterface._is_active L = false →
        ∃ w', ListenerInterface.unsubscribe w lid = some w'
          ∧ w'.signals = w.signals
          ∧ w'.listeners lid = some ⟨false, none, L.callback⟩
          ∧ (∀ i, i ≠ lid → w'.listeners i = w.listeners i)
          ∧ ListenerState.attachedSignal ⟨false, none, L.callback⟩ = L.attachedSignal
          ∧ Slot.is_active ⟨false, none, L.callback⟩ = Slot.is_active L
          ∧ ListenerInterface.unsubscribe w' lid = some w') := by
  constructor
  · intro S l hl
    unfold SlotSet._unsubsribe
    rw [Finset.erase_eq_of_not_mem hl]
  · intro w lid L hL hact
    refine ⟨w.setListener lid ⟨false, none, L.callback⟩, ?_, rfl, ?_, ?_, ?_, ?_, ?_⟩
    · simp [ListenerInterface.unsubscribe, hL, hact]
    · simp
    · intro i hi
      simp [hi]
    · rw [attachedSignal_eq_none L hact]
      rfl
    · unfold Slot.is_active
      rw [hact]
      simp [ListenerInterface._is_active]
    · have hL' : (w.setListener lid ⟨false, none, L.callback⟩).listeners lid
          = some ⟨false, none, L.callback⟩ := by simp
      have hact' : ListenerInterface._is_active ⟨false, none, L.callback⟩ = false := rfl
      simp [ListenerInterface.unsubscribe, hL', hact']
      exact World.setListener_eq_self _ _ _ hL'

/-- Witness for C7 at the concrete heap `wFree`. -/
theorem C7_witness :
    wFree.listeners 0 = some ⟨false, none, some 5⟩
    ∧ ListenerInterface._is_active ⟨false, none, some 5⟩ = false
    ∧ (∃ w', ListenerInterface.unsubscribe wFree 0 = some w'
        ∧ w'.signals = wFree.signals
        ∧ w'.listeners 0 = some ⟨false, none, some 5⟩
        ∧ (∀ i, i ≠ 0 → w'.listeners i = wFree.listeners i)
        ∧ ListenerState.attachedSignal ⟨false, none, some 5⟩
            = ListenerState.attachedSignal ⟨false, none, some 5⟩
        ∧ Slot.is_active ⟨false, none, some 5⟩ = Slot.is_active ⟨false, none, some 5⟩
        ∧ ListenerInterface.unsubscribe w' 0 = some w') :=
  ⟨rfl, rfl, C7_unsubscribe_silent_noop.2 wFree 0 ⟨false, none, some 5⟩ rfl rfl⟩

/-- Claim C8: the signal copy constructor yields an empty subscriber set,
copy assignment leaves the destination's subscriber set unchanged, and only
the explicit `Signal::copy` transfers the source's subscriber set. -/
theorem C8_default_copy_is_shallow :
    (∀ S : SignalState, (Signal.copyCtor S).slots = ∅)
    ∧ (∀ D S : SignalState, Signal.copyAssign D S = D)
    ∧ (∀ (w : World) (destId srcId : Nat) (D Ssrc : SignalState),
        w.signals destId = some D → w.signals srcId = some Ssrc → destId ≠ srcId →
        ∃ w', Signal.copy w destId srcId = some w'
          ∧ (∃ D', w'.signals destId = some D'
              ∧ D'.slots = Ssrc.slots ∧ D'.data = D.data)) := by
  refine ⟨fun S => rfl, fun D S => rfl, ?_⟩
  intro w destId srcId D Ssrc hD hS hne
  refine ⟨w.setSignal destId { D with slots := Ssrc.slots }, ?_, ?_⟩
  · simp [Signal.copy, hD, hS, Ne.symm hne]
  · exact ⟨{ D with slots := Ssrc.slots }, by simp, rfl, rfl⟩

/-- Witness for C8 at the concrete heap `wPair` (copying signal 0 into
signal 1). -/
theorem C8_witness :
    wPair.signals 1 = some ⟨∅, 0⟩
    ∧ wPair.signals 0 = some ⟨{0}, 0⟩
    ∧ (1 : Nat) ≠ 0
    ∧ (∃ w', Signal.copy wPair 1 0 = some w'
        ∧ (∃ D', w'.signals 1 = some D'
            ∧ D'.slots = SignalState.slots ⟨{0}, 0⟩ ∧ D'.data = SignalState.data ⟨∅, 0⟩)) :=
  ⟨rfl, rfl, by decide,
    C8_default_copy_is_shallow.2.2 wPair 1 0 ⟨∅, 0⟩ ⟨{0}, 0⟩ rfl rfl (by decide)⟩

/-- Claim C9: `Signal::copy` replaces the destination's subscriber set with
the source's and changes nothing else — every listener keeps its exact
state, so a listener attached to the source ends up contained in the
destination's set while its attached signal still names the source. -/
theorem C9_explicit_copy_keeps_listener_state (w : World) (destId srcId : Nat)
    (D Ssrc : SignalState)
    (hD : w.signals destId = some D) (hS : w.signals srcId = some Ssrc)
    (hne : destId ≠ srcId) :
    ∃ w', Signal.copy w destId srcId = some w'
      ∧ w'.listeners = w.listeners
      ∧ (∀ i, i ≠ destId → w'.signals i = w.signals i)
      ∧ (∃ D', w'.signals destId = some D' ∧ D'.slots = Ssrc.slots)
      ∧ (∀ lid L, w.listeners lid = some L → L.attachedSignal = some srcId →
          lid ∈ Ssrc.slots →
          (∃ D', w'.signals destId = some D' ∧ lid ∈ D'.slots)
          ∧ w'.listeners lid = some L
          ∧ L.attachedSignal = some srcId
          ∧ L.attachedSignal ≠ some destId) := by
  refine ⟨w.setSignal destId { D with slots := Ssrc.slots }, ?_, rfl, ?_, ?_, ?_⟩
  · simp [Signal.copy, hD, hS, Ne.symm hne]
  · intro i hi
    simp [hi]
  · exact ⟨{ D with slots := Ssrc.slots }, by simp, rfl⟩
  · intro lid L hL hatt hmem
    refine ⟨⟨{ D with slots := Ssrc.slots }, by simp, hmem⟩, hL, hatt, ?_⟩
    rw [hatt]
    simp [Ne.symm hne]

/-- Witness for C9 at the concrete heap `wPair` (copying signal 0 into
signal 1; listener 0 stays attached to signal 0). -/
theorem C9_witness :
    wPair.signals 1 = some ⟨∅, 0⟩
    ∧ wPair.signals 0 = some ⟨{0}, 0⟩
    ∧ (1 : Nat) ≠ 0
    ∧ (∃ w', Signal.copy wPair 1 0 = some w'
        ∧ w'.listeners = wPair.listeners
        ∧ (∀ i, i ≠ 1 → w'.signals i = wPair.signals i)
        ∧ (∃ D', w'.signals 1 = some D' ∧ D'.slots = SignalState.slots ⟨{0}, 0⟩)
        ∧ (∀ lid L, wPair.listeners lid = some L → L.attachedSignal = some 0 →
            lid ∈ SignalState.slots ⟨{0}, 0⟩ →
            (∃ D', w'.signals 1 = some D' ∧ lid ∈ D'.slots)
            ∧ w'.listeners lid = some L
            ∧ L.attachedSignal = some 0
            ∧ L.attachedSignal ≠ some 1)) :=
  ⟨rfl, rfl, by decide,
    C9_explicit_copy_keeps_listener_state wPair 1 0 ⟨∅, 0⟩ ⟨{0}, 0⟩ rfl rfl (by decide)⟩

/-- Claim C4: invoking a signal dispatches to each subscribed listener
exactly once — the call list has no duplicate, contains one event per
subscribed listener, every event belongs to a subscribed listener and
carries its callback and the current payload — and leaves the heap (hence
the subscriber count) unchanged; the call list's length is the subscriber
count. -/
theorem C4_fanout (w : World) (sid : Nat) (S : SignalState)
    (hS : w.signals sid = some S)
    (hlive : ∀ l ∈ S.slots, (w.listeners l).isSome) :
    ∃ evts, Signal.invoke w sid = some (w, evts)
      ∧ evts.length = SlotSet.count S
      ∧ evts.Nodup
      ∧ (∀ l ∈ S.slots,
          (l, ((w.listeners l).bind ListenerState.callback, S.data)) ∈ evts)
      ∧ (∀ e ∈ evts, e.1 ∈ S.slots
          ∧ e.2.1 = (w.listeners e.1).bind ListenerState.callback
          ∧ e.2.2 = S.data) := by
  have hinj : Function.Injective
      (fun l => (l, ((w.listeners l).bind ListenerState.callback, S.data))) := by
    intro a b hab
    exact congrArg Prod.fst hab
  refine ⟨(S.slots.sort (· ≤ ·)).map
    (fun l => (l, ((w.listeners l).bind ListenerState.callback, S.data))), ?_, ?_, ?_, ?_, ?_⟩
  · exact Signal.invoke_eq w sid S hS hlive
  · rw [List.length_map, Finset.length_sort]
    rfl
  · exact (Finset.sort_nodup _ _).map hinj
  · intro l hl
    exact List.mem_map_of_mem _ ((Finset.mem_sort _).mpr hl)
  · intro e he
    rcases List.mem_map.mp he with ⟨l, hl, rfl⟩
    exact ⟨(Finset.mem_sort _).mp hl, rfl, rfl⟩

/-- Witness for C4 at the concrete heap `wTwo` (two listeners, payload 7). -/
theorem C4_witness :
    wTwo.signals 0 = some ⟨{0, 1}, 7⟩
    ∧ (∀ l ∈ SignalState.slots ⟨{0, 1}, 7⟩, (wTwo.listeners l).isSome)
    ∧ (∃ evts, Signal.invoke wTwo 0 = some (wTwo, evts)
        ∧ evts.length = SlotSet.count ⟨{0, 1}, 7⟩
        ∧ evts.Nodup
        ∧ (∀ l ∈ SignalState.slots ⟨{0, 1}, 7⟩,
            (l, ((wTwo.listeners l).bind ListenerState.callback, 7)) ∈ evts)
        ∧ (∀ e ∈ evts, e.1 ∈ SignalState.slots ⟨{0, 1}, 7⟩
            ∧ e.2.1 = (wTwo.listeners e.1).bind ListenerState.callback
            ∧ e.2.2 = 7)) :=
  ⟨rfl, by decide, C4_fanout wTwo 0 ⟨{0, 1}, 7⟩ rfl (by decide)⟩

/-- The attachment-symmetry invariant holds in the concrete heap `wPair`. -/
theorem invariant_wPair : Invariant wPair := by
  intro lid L hL sid S hS
  simp only [wPair, tbl2] at hL hS
  split at hL
  · next h0 =>
    cases hL
    split at hS
    · next hs0 =>
      cases hS
      subst h0
      subst hs0
      decide
    · next hs0 =>
      split at hS
      · next hs1 =>
        cases hS
        subst h0
        subst hs1
        decide
      · next hs1 => cases hS
  · next h0 =>
    split at hL
    · next => cases hL
    · next => cases hL

/-- Counterexample to claim C2: in `wPair`, listener 0 is attached to
signal 0 (count 1); after `subscribe`-ing it to signal 1, it is still
present in signal 0's subscriber set and signal 0's count is still 1 — the
re-subscription did not remove it from the old signal. -/
theorem C2_counterexample :
    wPair.listeners 0 = some ⟨true, some 0, some 5⟩
    ∧ wPair.signals 0 = some ⟨{0}, 0⟩
    ∧ SlotSet.count ⟨{0}, 0⟩ = 1
    ∧ (∃ w', ListenerInterface.subscribe wPair 0 1 = some w'
        ∧ w'.signals 0 = some ⟨{0}, 0⟩
        ∧ 0 ∈ SignalState.slots ⟨{0}, 0⟩
        ∧ SlotSet.count ⟨{0}, 0⟩ = 1) := by
  refine ⟨rfl, rfl, by decide, ⟨_, rfl, rfl, by decide, by decide⟩⟩

/-- Amended claim C2: `subscribe` to a second signal S2 while attached to
S1 leaves the listener present in BOTH subscriber sets: S1's set and count
are unchanged (the listener is still in it), S2 gains the listener and its
count grows by 1, and the listener's attached signal becomes S2. -/
theorem C2_amended_resubscribe_not_exclusive (w : World) (lid s1 s2 : Nat)
    (L : ListenerState) (S1 S2 : SignalState)
    (hInv : Invariant w)
    (hL : w.listeners lid = some L) (hatt : L.attachedSignal = some s1)
    (hS1 : w.signals s1 = some S1) (hS2 : w.signals s2 = some S2) (hne : s1 ≠ s2) :
    ∃ w', ListenerInterface.subscribe w lid s2 = some w'
      ∧ w'.signals s1 = some S1
      ∧ lid ∈ S1.slots
      ∧ (∃ S2', w'.signals s2 = some S2' ∧ lid ∈ S2'.slots
          ∧ SlotSet.count S2' = SlotSet.count S2 + 1)
      ∧ (∃ L', w'.listeners lid = some L' ∧ L'.attachedSignal = some s2) := by
  have hmem1 : lid ∈ S1.slots := (hInv lid L hL s1 S1 hS1).mp hatt
  have hnot2 : lid ∉ S2.slots := by
    intro hmem
    have h2 := (hInv lid L hL s2 S2 hS2).mpr hmem
    rw [hatt] at h2
    exact hne (by injection h2)
  refine ⟨(w.setListener lid { L with signal := some s2, active := true }).setSignal s2
    (SlotSet._subscribe S2 lid), ?_, ?_, hmem1, ?_, ?_⟩
  · simp [ListenerInterface.subscribe, hL, hS2]
  · simp [hne, hS1]
  · refine ⟨SlotSet._subscribe S2 lid, by simp, ?_, ?_⟩
    · exact Finset.mem_insert_self lid S2.slots
    · unfold SlotSet.count SlotSet._subscribe
      exact Finset.card_insert_of_not_mem hnot2
  · exact ⟨⟨true, some s2, L.callback⟩, by simp, rfl⟩

/-- Witness for the amended C2 at the concrete heap `wPair` (listener 0,
attached to signal 0, subscribes to signal 1). -/
theorem C2_witness :
    Invariant wPair
    ∧ wPair.listeners 0 = some ⟨true, some 0, some 5⟩
    ∧ ListenerState.attachedSignal ⟨true, some 0, some 5⟩ = some 0
    ∧ wPair.signals 0 = some ⟨{0}, 0⟩
    ∧ wPair.signals 1 = some ⟨∅, 0⟩
    ∧ (0 : Nat) ≠ 1
    ∧ (∃ w', ListenerInterface.subscribe wPair 0 1 = some w'
        ∧ w'.signals 0 = some ⟨{0}, 0⟩
        ∧ 0 ∈ SignalState.slots ⟨{0}, 0⟩
        ∧ (∃ S2', w'.signals 1 = some S2' ∧ 0 ∈ S2'.slots
            ∧ SlotSet.count S2' = SlotSet.count ⟨∅, 0⟩ + 1)
        ∧ (∃ L', w'.listeners 0 = some L' ∧ L'.attachedSignal = some 1)) :=
  ⟨invariant_wPair, rfl, rfl, rfl, rfl, by decide,
    C2_amended_resubscribe_not_exclusive wPair 0 0 1 ⟨true, some 0, some 5⟩ ⟨{0}, 0⟩ ⟨∅, 0⟩
      invariant_wPair rfl rfl rfl rfl (by decide)⟩

/-- Claim C5: destroying a subscribed listener removes it from its signal's
subscriber set: with listeners `l1` and `l2` subscribed, destroying `l1`
leaves the signal with subscriber set `{l2}` and count 1, and a subsequent
invoke dispatches exactly one call, to `l2`'s callback with the payload. -/
theorem C5_listener_destroyed_first (w : World) (sid l1 l2 : Nat) (S : SignalState)
    (L1 L2 : ListenerState)
    (hS : w.signals sid = some S) (hslots : S.slots = {l1, l2}) (hne : l1 ≠ l2)
    (hL1 : w.listeners l1 = some L1) (hL2 : w.listeners l2 = some L2)
    (hact : L1.active = true) (hsig : L1.signal = some sid) :
    ∃ w', Slot.destroy w l1 = some w'
      ∧ (∃ S', w'.signals sid = some S' ∧ SlotSet.count S' = 1 ∧ S'.slots = {l2})
      ∧ w'.listeners l1 = none
      ∧ (∃ evts, Signal.invoke w' sid = some (w', evts)
          ∧ evts = [(l2, (L2.callback, S.data))]) := by
  have herase : S.slots.erase l1 = {l2} := by
    rw [hslots]
    rw [Finset.erase_insert (Finset.not_mem_singleton.mpr hne)]
  have hunsub := unsubscribe_active_eq w l1 L1 sid S hL1 hact hsig hS
  have hw1 : ((w.setSignal sid (SlotSet._unsubsribe S l1)).setListener l1
      ⟨false, none, L1.callback⟩).listeners l1 = some ⟨false, none, L1.callback⟩ := by simp
  have hclear : Slot.clear w l1
      = some (((w.setSignal sid (SlotSet._unsubsribe S l1)).setListener l1
          ⟨false, none, L1.callback⟩).setListener l1 ⟨false, none, none⟩) := by
    unfold Slot.clear
    rw [hunsub, Option.map_some', hw1]
  have hdest : Slot.destroy w l1
      = some ((((w.setSignal sid (SlotSet._unsubsribe S l1)).setListener l1
          ⟨false, none, L1.callback⟩).setListener l1 ⟨false, none, none⟩).killListener l1) := by
    unfold Slot.destroy
    rw [hclear, Option.map_some']
  refine ⟨_, hdest, ?_, ?_, ?_⟩
  · refine ⟨SlotSet._unsubsribe S l1, by simp, ?_, ?_⟩
    · unfold SlotSet.count SlotSet._unsubsribe
      rw [herase]
      exact Finset.card_singleton l2
    · exact herase
  · simp
  · have hS' : ((((w.setSignal sid (SlotSet._unsubsribe S l1)).setListener l1
        ⟨false, none, L1.callback⟩).setListener l1 ⟨false, none, none⟩).killListener l1).signals sid
        = some (SlotSet._unsubsribe S l1) := by simp
    have hL2' : ((((w.setSignal sid (SlotSet._unsubsribe S l1)).setListener l1
        ⟨false, none, L1.callback⟩).setListener l1 ⟨false, none, none⟩).killListener l1).listeners l2
        = some L2 := by
      simp [Ne.symm hne, hL2]
    have hlive' : ∀ l ∈ (SlotSet._unsubsribe S l1).slots,
        (((((w.setSignal sid (SlotSet._unsubsribe S l1)).setListener l1
          ⟨false, none, L1.callback⟩).setListener l1 ⟨false, none, none⟩).killListener l1).listeners l).isSome := by
      intro l hl
      unfold SlotSet._unsubsribe at hl
      simp only at hl
      rw [herase] at hl
      rw [Finset.mem_singleton] at hl
      subst hl
      rw [hL2']
      rfl
    refine ⟨_, Signal.invoke_eq _ sid (SlotSet._unsubsribe S l1) hS' hlive', ?_⟩
    have hslots' : (SlotSet._unsubsribe S l1).slots = {l2} := herase
    rw [hslots', Finset.sort_singleton]
    rw [List.map_singleton]
    rw [hL2']
    rfl

/-- Witness for C5 at the concrete heap `wTwo` (destroying listener 0). -/
theorem C5_witness :
    wTwo.signals 0 = some ⟨{0, 1}, 7⟩
    ∧ SignalState.slots ⟨{0, 1}, 7⟩ = {0, 1}
    ∧ (0 : Nat) ≠ 1
    ∧ wTwo.listeners 0 = some ⟨true, some 0, some 5⟩
    ∧ wTwo.listeners 1 = some ⟨true, some 0, some 6⟩
    ∧ (∃ w', Slot.destroy wTwo 0 = some w'
        ∧ (∃ S', w'.signals 0 = some S' ∧ SlotSet.count S' = 1 ∧ S'.slots = {1})
        ∧ w'.listeners 0 = none
        ∧ (∃ evts, Signal.invoke w' 0 = some (w', evts)
            ∧ evts = [(1, (some 6, 7))])) :=
  ⟨rfl, rfl, by decide, rfl, rfl,
    C5_listener_destroyed_first wTwo 0 0 1 ⟨{0, 1}, 7⟩ ⟨true, some 0, some 5⟩
      ⟨true, some 0, some 6⟩ rfl rfl (by decide) rfl rfl rfl rfl⟩

/-- Counterexample to claim C6: in `wUnbound` the unbound listener 0 sits
in signal 0's subscriber set; its `is_active` is `false`, yet `invoke`
dispatches to it — the call list contains the event `(0, none, 42)`, a call
through the null callback pointer.  Dispatch is not gated by the active
check. -/
theorem C6_counterexample :
    wUnbound.listeners 0 = some ⟨true, some 0, none⟩
    ∧ Slot.is_active ⟨true, some 0, none⟩ = false
    ∧ Signal.invoke wUnbound 0 = some (wUnbound, [(0, (none, 42))]) := by
  refine ⟨rfl, rfl, ?_⟩
  rw [Signal.invoke_eq wUnbound 0 ⟨{0}, 42⟩ rfl (by decide), Finset.sort_singleton]
  rfl

/-- Amended claim C6: a listener whose callback was never bound has
`is_active() = false`; however `Signal::invoke` performs no active check —
it dispatches to every identity in the subscriber set, so an unbound
listener present in the set is called (through its null callback
pointer). -/
theorem C6_amended_no_gating :
    (∀ L : ListenerState, L.callback = none → Slot.is_active L = false)
    ∧ (∀ (w : World) (sid : Nat) (S : SignalState),
        w.signals sid = some S → (∀ l ∈ S.slots, (w.listeners l).isSome) →
        ∃ evts, Signal.invoke w sid = some (w, evts)
          ∧ ∀ l ∈ S.slots, ∀ L, w.listeners l = some L → L.callback = none →
              (l, ((none : Option Nat), S.data)) ∈ evts) := by
  constructor
  · intro L h
    unfold Slot.is_active
    rw [h]
    rfl
  · intro w sid S hS hlive
    refine ⟨(S.slots.sort (· ≤ ·)).map
      (fun l => (l, ((w.listeners l).bind ListenerState.callback, S.data))), ?_, ?_⟩
    · exact Signal.invoke_eq w sid S hS hlive
    · intro l hl L hL hcb
      have : (l, ((none : Option Nat), S.data))
          = (l, ((w.listeners l).bind ListenerState.callback, S.data)) := by
        rw [hL]
        simp [hcb]
      rw [this]
      exact List.mem_map_of_mem _ ((Finset.mem_sort _).mpr hl)

/-- Witness for the amended C6 at the concrete heap `wUnbound`. -/
theorem C6_witness :
    ListenerState.callback ⟨true, some 0, none⟩ = none
    ∧ Slot.is_active ⟨true, some 0, none⟩ = false
    ∧ wUnbound.signals 0 = some ⟨{0}, 42⟩
    ∧ (∀ l ∈ SignalState.slots ⟨{0}, 42⟩, (wUnbound.listeners l).isSome)
    ∧ (∃ evts, Signal.invoke wUnbound 0 = some (wUnbound, evts)
        ∧ ∀ l ∈ SignalState.slots ⟨{0}, 42⟩, ∀ L, wUnbound.listeners l = some L →
            L.callback = none → (l, ((none : Option Nat), 42)) ∈ evts) :=
  ⟨rfl, C6_amended_no_gating.1 ⟨true, some 0, none⟩ rfl, rfl, by decide,
    C6_amended_no_gating.2 wUnbound 0 ⟨{0}, 42⟩ rfl (by decide)⟩

/-- Evaluation of `Slot.copyFrom` when the source slot is active. -/
theorem copyFrom_active_eq (w : World) (destId srcId sid : Nat) (D Lsrc : ListenerState)
    (S : SignalState)
    (hD : w.listeners destId = some D) (hsrc : w.listeners srcId = some Lsrc)
    (hne : destId ≠ srcId) (hact : Slot.is_active Lsrc = true)
    (hsig : Lsrc.signal = some sid) (hS : w.signals sid = some S) :
    Slot.copyFrom w destId srcId
      = some (((w.setListener destId { D with callback := Lsrc.callback }).setListener destId
          ⟨true, some sid, Lsrc.callback⟩).setSignal sid (SlotSet._subscribe S destId)) := by
  simp [Slot.copyFrom, hD, hsrc, hne, hact, hsig, ListenerInterface.subscribe, hS]

/-- Evaluation of `Slot.copyFrom` when the source slot is not active: the
heap is untouched. -/
theorem copyFrom_inactive_eq (w : World) (destId srcId : Nat) (D Lsrc : ListenerState)
    (hD : w.listeners destId = some D) (hsrc : w.listeners srcId = some Lsrc)
    (hact : Slot.is_active Lsrc = false) :
    Slot.copyFrom w destId srcId = some w := by
  by_cases hne : destId = srcId
  · simp [Slot.copyFrom, hD, hsrc, hne]
  · simp [Slot.copyFrom, hD, hsrc, hne, hact]

/-- Counterexample to claim C10: in `wAssign`, the source listener 0 is
bound (callback 7) but detached, hence not active; copy-assigning it into
listener 1 — which is bound to callback 5 and attached to signal 0 — is a
complete no-op: the destination keeps its non-null callback and stays
active, instead of ending with a null callback and detached. -/
theorem C10_counterexample :
    wAssign.listeners 0 = some ⟨false, none, some 7⟩
    ∧ Slot.is_active ⟨false, none, some 7⟩ = false
    ∧ ListenerState.callback ⟨false, none, some 7⟩ = some 7
    ∧ Slot.copyAssign wAssign 1 0 = some wAssign
    ∧ wAssign.listeners 1 = some ⟨true, some 0, some 5⟩
    ∧ ListenerState.callback ⟨true, some 0, some 5⟩ = some 5
    ∧ Slot.is_active ⟨true, some 0, some 5⟩ = true := by
  refine ⟨rfl, rfl, rfl, ?_, rfl, rfl, rfl⟩
  exact copyFrom_inactive_eq wAssign 1 0 ⟨true, some 0, some 5⟩ ⟨false, none, some 7⟩
    rfl rfl rfl

/-- Amended claim C10: copying a Slot from an active source — by copy
construction or copy assignment — copies the source's callback and
subscribes the destination to the source's signal; copy CONSTRUCTION from
an inactive source (including one bound but unattached) yields a null
callback and a detached, inactive destination; copy ASSIGNMENT from an
inactive source, however, is a no-op that leaves the destination (and the
whole heap) unchanged. -/
theorem C10_amended_copy_semantics :
    (∀ (w : World) (destId srcId sid : Nat) (Lsrc : ListenerState) (S : SignalState),
        w.listeners destId = none → w.listeners srcId = some Lsrc →
        Slot.is_active Lsrc = true → Lsrc.signal = some sid → w.signals sid = some S →
        destId ≠ srcId →
        ∃ w', Slot.copyCtor w destId srcId = some w'
          ∧ w'.listeners destId = some ⟨true, some sid, Lsrc.callback⟩
          ∧ (∃ S', w'.signals sid = some S' ∧ destId ∈ S'.slots))
    ∧ (∀ (w : World) (destId srcId : Nat) (Lsrc : ListenerState),
        w.listeners destId = none → w.listeners srcId = some Lsrc →
        Slot.is_active Lsrc = false → destId ≠ srcId →
        ∃ w', Slot.copyCtor w destId srcId = some w'
          ∧ w'.listeners destId = some ⟨false, none, none⟩
          ∧ Slot.is_active ⟨false, none, none⟩ = false
          ∧ ListenerState.attachedSignal ⟨false, none, none⟩ = none)
    ∧ (∀ (w : World) (destId srcId sid : Nat) (D Lsrc : ListenerState) (S : SignalState),
        w.listeners destId = some D → w.listeners srcId = some Lsrc →
        Slot.is_active Lsrc = true → Lsrc.signal = some sid → w.signals sid = some S →
        destId ≠ srcId →
        ∃ w', Slot.copyAssign w destId srcId = some w'
          ∧ w'.listeners destId = some ⟨true, some sid, Lsrc.callback⟩
          ∧ (∃ S', w'.signals sid = some S' ∧ destId ∈ S'.slots))
    ∧ (∀ (w : World) (destId srcId : Nat) (D Lsrc : ListenerState),
        w.listeners destId = some D → w.listeners srcId = some Lsrc →
        Slot.is_active Lsrc = false →
        Slot.copyAssign w destId srcId = some w) := by
  refine ⟨?_, ?_, ?_, ?_⟩
  · intro w destId srcId sid Lsrc S hdest hsrc hact hsig hS hne
    have hD1 : (w.setListener destId ⟨false, none, none⟩).listeners destId
        = some ⟨false, none, none⟩ := by simp
    have hsrc1 : (w.setListener destId ⟨false, none, none⟩).listeners srcId = some Lsrc := by
      simp [Ne.symm hne, hsrc]
    have hS1 : (w.setListener destId ⟨false, none, none⟩).signals sid = some S := hS
    have hcf := copyFrom_active_eq (w.setListener destId ⟨false, none, none⟩)
      destId srcId sid ⟨false, none, none⟩ Lsrc S hD1 hsrc1 hne hact hsig hS1
    refine ⟨(((w.setListener destId ⟨false, none, none⟩).setListener destId
        ⟨false, none, Lsrc.callback⟩).setListener destId
        ⟨true, some sid, Lsrc.callback⟩).setSignal sid (SlotSet._subscribe S destId),
      ?_, ?_, ?_⟩
    · unfold Slot.copyCtor
      rw [hdest]
      exact hcf
    · simp
    · exact ⟨SlotSet._subscribe S destId, by simp, Finset.mem_insert_self _ _⟩
  · intro w destId srcId Lsrc hdest hsrc hact hne
    have hD1 : (w.setListener destId ⟨false, none, none⟩).listeners destId
        = some ⟨false, none, none⟩ := by simp
    have hsrc1 : (w.setListener destId ⟨false, none, none⟩).listeners srcId = some Lsrc := by
      simp [Ne.symm hne, hsrc]
    have hcf := copyFrom_inactive_eq (w.setListener destId ⟨false, none, none⟩)
      destId srcId ⟨false, none, none⟩ Lsrc hD1 hsrc1 hact
    refine ⟨w.setListener destId ⟨false, none, none⟩, ?_, ?_, rfl, rfl⟩
    · unfold Slot.copyCtor
      rw [hdest]
      exact hcf
    · simp
  · intro w destId srcId sid D Lsrc S hD hsrc hact hsig hS hne
    have hcf := copyFrom_active_eq w destId srcId sid D Lsrc S hD hsrc hne hact hsig hS
    refine ⟨_, hcf, ?_, ?_⟩
    · simp
    · exact ⟨SlotSet._subscribe S destId, by simp, Finset.mem_insert_self _ _⟩
  · intro w destId srcId D Lsrc hD hsrc hact
    exact copyFrom_inactive_eq w destId srcId D Lsrc hD hsrc hact

/-- Witness for the amended C10: copy construction from the active listener
0 of `wPair` into fresh identity 1, and copy assignment from the inactive
listener 0 of `wAssign` into the active listener 1. -/
theorem C10_witness :
    wPair.listeners 1 = none
    ∧ wPair.listeners 0 = some ⟨true, some 0, some 5⟩
    ∧ Slot.is_active ⟨true, some 0, some 5⟩ = true
    ∧ wPair.signals 0 = some ⟨{0}, 0⟩
    ∧ (∃ w', Slot.copyCtor wPair 1 0 = some w'
        ∧ w'.listeners 1 = some ⟨true, some 0, some 5⟩
        ∧ (∃ S', w'.signals 0 = some S' ∧ 1 ∈ S'.slots))
    ∧ wAssign.listeners 0 = some ⟨false, none, some 7⟩
    ∧ Slot.is_active ⟨false, none, some 7⟩ = false
    ∧ Slot.copyAssign wAssign 1 0 = some wAssign :=
  ⟨rfl, rfl, rfl, rfl,
    C10_amended_copy_semantics.1 wPair 1 0 0 ⟨true, some 0, some 5⟩ ⟨{0}, 0⟩
      rfl rfl rfl rfl rfl (by decide),
    rfl, rfl,
    C10_amended_copy_semantics.2.2.2 wAssign 1 0 ⟨true, some 0, some 5⟩
      ⟨false, none, some 7⟩ rfl rfl rfl⟩

/-- Claim C3: clearing or destroying a signal deactivates every subscribed
listener in place — only the `active` flag is cleared, the subscriber-side
unsubscribe is not run (the listener's `signal` and `callback` fields are
untouched) — and then empties the subscriber set; afterwards the listener
is inactive with no attached signal, and a subsequent `unsubscribe()` on it
succeeds without touching any signal (it never dereferences the destroyed
one). -/
theorem C3_signal_teardown (w : World) (sid : Nat) (S : SignalState)
    (hS : w.signals sid = some S)
    (hall : ∀ l ∈ S.slots, (w.listeners l).isSome)
    (lid : Nat) (L : ListenerState)
    (hmem : lid ∈ S.slots) (hL : w.listeners lid = some L) :
    (∃ wc, Signal.clear w sid = some wc
      ∧ (∃ S', wc.signals sid = some S' ∧ S'.slots = ∅)
      ∧ wc.listeners lid = some { L with active := false }
      ∧ (∃ w'', ListenerInterface.unsubscribe wc lid = some w''
          ∧ w''.signals = wc.signals))
    ∧ (∃ wd, Signal.destroy w sid = some wd
      ∧ wd.signals sid = none
      ∧ wd.listeners lid = some { L with active := false }
      ∧ Slot.is_active { L with active := false } = false
      ∧ ListenerState.attachedSignal { L with active := false } = none
      ∧ ListenerState.signal { L with active := false } = L.signal
      ∧ ListenerState.callback { L with active := false } = L.callback
      ∧ (∃ w2, ListenerInterface.unsubscribe wd lid = some w2
          ∧ w2.signals = wd.signals)) := by
  obtain ⟨wc, hclear, hsig, hlis⟩ := clear_eq w sid S hS hall
  have hdeact : ListenerInterface._is_active { L with active := false } = false := by
    simp [ListenerInterface._is_active]
  have hLc : wc.listeners lid = some { L with active := false } := by
    rw [hlis lid]
    simp [hmem, hL]
  constructor
  · refine ⟨wc, hclear, ⟨{ S with slots := ∅ }, ?_, rfl⟩, hLc, ?_⟩
    · rw [hsig sid]
      simp
    · exact ⟨_, unsubscribe_inactive_eq wc lid { L with active := false } hLc hdeact, rfl⟩
  · have hdest : Signal.destroy w sid = some (wc.killSignal sid) := by
      unfold Signal.destroy
      rw [hclear, Option.map_some']
    have hLd : (wc.killSignal sid).listeners lid = some { L with active := false } := hLc
    refine ⟨wc.killSignal sid, hdest, by simp, hLd, ?_, rfl, rfl, rfl, ?_⟩
    · simp [Slot.is_active, ListenerInterface._is_active]
    · exact ⟨_, unsubscribe_inactive_eq (wc.killSignal sid) lid
        { L with active := false } hLd hdeact, rfl⟩

/-- Witness for C3 at the concrete heap `wTwo` (destroying signal 0;
listener 0 is one of its subscribers). -/
theorem C3_witness :
    wTwo.signals 0 = some ⟨{0, 1}, 7⟩
    ∧ (∀ l ∈ SignalState.slots ⟨{0, 1}, 7⟩, (wTwo.listeners l).isSome)
    ∧ 0 ∈ SignalState.slots ⟨{0, 1}, 7⟩
    ∧ wTwo.listeners 0 = some ⟨true, some 0, some 5⟩
    ∧ ((∃ wc, Signal.clear wTwo 0 = some wc
        ∧ (∃ S', wc.signals 0 = some S' ∧ S'.slots = ∅)
        ∧ wc.listeners 0 = some ⟨false, some 0, some 5⟩
        ∧ (∃ w'', ListenerInterface.unsubscribe wc 0 = some w''
            ∧ w''.signals = wc.signals))
      ∧ (∃ wd, Signal.destroy wTwo 0 = some wd
        ∧ wd.signals 0 = none
        ∧ wd.listeners 0 = some ⟨false, some 0, some 5⟩
        ∧ Slot.is_active ⟨false, some 0, some 5⟩ = false
        ∧ ListenerState.attachedSignal ⟨false, some 0, some 5⟩ = none
        ∧ ListenerState.signal ⟨false, some 0, some 5⟩
            = ListenerState.signal ⟨true, some 0, some 5⟩
        ∧ ListenerState.callback ⟨false, some 0, some 5⟩
            = ListenerState.callback ⟨true, some 0, some 5⟩
        ∧ (∃ w2, ListenerInterface.unsubscribe wd 0 = some w2
            ∧ w2.signals = wd.signals))) :=
  ⟨rfl, by decide, by decide, rfl,
    C3_signal_teardown wTwo 0 ⟨{0, 1}, 7⟩ rfl (by decide) 0 ⟨true, some 0, some 5⟩
      (by decide) rfl⟩

section InvariantPreservation

/-- Evaluation of `subscribe` when both objects are live. -/
theorem subscribe_eq (w : World) (lid sid : Nat) (L : ListenerState) (S : SignalState)
    (hL : w.listeners lid = some L) (hS : w.signals sid = some S) :
    ListenerInterface.subscribe w lid sid
      = some ((w.setListener lid { L with signal := some sid, active := true }).setSignal sid
          (SlotSet._subscribe S lid)) := by
  simp [ListenerInterface.subscribe, hL, hS]

/-- Destroying a listener preserves the attachment-symmetry invariant. -/
theorem invariant_killListener (w : World) (lid : Nat) (h : Invariant w) :
    Invariant (w.killListener lid) := by
  intro lid' L' hL' sid S hS
  simp only [World.killListener_listeners] at hL'
  split at hL'
  · cases hL'
  · exact h lid' L' hL' sid S hS

/-- Destroying a signal object preserves the attachment-symmetry
invariant. -/
theorem invariant_killSignal (w : World) (sid : Nat) (h : Invariant w) :
    Invariant (w.killSignal sid) := by
  intro lid' L' hL' sid' S hS
  simp only [World.killSignal_signals] at hS
  split at hS
  · cases hS
  · exact h lid' L' hL' sid' S hS

/-- Replacing a listener's state by one with the same attached signal
preserves the attachment-symmetry invariant. -/
theorem invariant_setListener_same_attach (w : World) (lid : Nat) (L L' : ListenerState)
    (hL : w.listeners lid = some L) (hsame : L'.attachedSignal = L.attachedSignal)
    (h : Invariant w) : Invariant (w.setListener lid L') := by
  intro lid' M hM sid S hS
  simp only [World.setListener_listeners] at hM
  split at hM
  · next heq =>
    injection hM with hM
    subst hM
    subst heq
    rw [hsame]
    exact h _ L hL sid S hS
  · exact h lid' M hM sid S hS

/-- `subscribe` of a DETACHED listener to a live signal preserves the
attachment-symmetry invariant. -/
theorem inv_subscribe_detached (w : World) (hInv : Invariant w) (lid sid : Nat)
    (L : ListenerState) (hL : w.listeners lid = some L) (hdet : L.attachedSignal = none)
    (w' : World) (h : ListenerInterface.subscribe w lid sid = some w') : Invariant w' := by
  cases hS : w.signals sid with
  | none => exact absurd h (by simp [ListenerInterface.subscribe, hL, hS])
  | some S =>
    rw [subscribe_eq w lid sid L S hL hS] at h
    injection h with h
    subst h
    intro lid' M hM sid' T hT
    simp only [World.setSignal_listeners, World.setListener_listeners] at hM
    simp only [World.setSignal_signals, World.setListener_signals] at hT
    by_cases hl : lid' = lid
    · subst hl
      rw [if_pos rfl] at hM
      injection hM with hM
      subst hM
      by_cases hs : sid' = sid
      · subst hs
        rw [if_pos rfl] at hT
        injection hT with hT
        subst hT
        constructor
        · intro _
          exact Finset.mem_insert_self lid' S.slots
        · intro _
          rfl
      · rw [if_neg hs] at hT
        constructor
        · intro hatt
          exfalso
          have h2 : some sid = some sid' := hatt
          injection h2 with h2
          exact hs h2.symm
        · intro hmem
          exfalso
          have h2 := (hInv lid' L hL sid' T hT).mpr hmem
          rw [hdet] at h2
          cases h2
    · rw [if_neg hl] at hM
      by_cases hs : sid' = sid
      · subst hs
        rw [if_pos rfl] at hT
        injection hT with hT
        subst hT
        have hbase := hInv lid' M hM sid' S hS
        constructor
        · intro hatt
          exact Finset.mem_insert_of_mem (hbase.mp hatt)
        · intro hmem
          rcases Finset.mem_insert.mp hmem with he | hm
          · exact absurd he hl
          · exact hbase.mpr hm
      · rw [if_neg hs] at hT
        exact hInv lid' M hM sid' T hT

/-- `unsubscribe` preserves the attachment-symmetry invariant. -/
theorem inv_unsubscribe (w : World) (hInv : Invariant w) (lid : Nat) (w' : World)
    (h : ListenerInterface.unsubscribe w lid = some w') : Invariant w' := by
  cases hL : w.listeners lid with
  | none => exact absurd h (by simp [ListenerInterface.unsubscribe, hL])
  | some L =>
    by_cases hact : ListenerInterface._is_active L = true
    · cases hsig : L.signal with
      | none =>
        have hf : ListenerInterface._is_active L = false := by
          unfold ListenerInterface._is_active
          rw [hsig]
          simp
        rw [hf] at hact
        cases hact
      | some sid =>
        have hLact : L.active = true := by
          unfold ListenerInterface._is_active at hact
          rw [hsig] at hact
          simpa using hact
        have hattL : L.attachedSignal = some sid := by
          simp [ListenerState.attachedSignal, hLact, hsig]
        cases hS : w.signals sid with
        | none =>
          exact absurd h
            (by simp [ListenerInterface.unsubscribe, hL, hact, hsig, hS])
        | some S =>
          rw [unsubscribe_active_eq w lid L sid S hL hLact hsig hS] at h
          injection h with h
          subst h
          intro lid' M hM sid' T hT
          simp only [World.setSignal_listeners, World.setListener_listeners] at hM
          simp only [World.setSignal_signals, World.setListener_signals] at hT
          by_cases hl : lid' = lid
          · subst hl
            rw [if_pos rfl] at hM
            injection hM with hM
            subst hM
            constructor
            · intro hatt
              exfalso
              simp [ListenerState.attachedSignal] at hatt
            · intro hmem
              exfalso
              by_cases hs : sid' = sid
              · subst hs
                rw [if_pos rfl] at hT
                injection hT with hT
                subst hT
                exact absurd hmem (Finset.not_mem_erase lid' S.slots)
              · rw [if_neg hs] at hT
                have h2 := (hInv lid' L hL sid' T hT).mpr hmem
                rw [hattL] at h2
                injection h2 with h2
                exact hs h2.symm
          · rw [if_neg hl] at hM
            by_cases hs : sid' = sid
            · subst hs
              rw [if_pos rfl] at hT
              injection hT with hT
              subst hT
              have hbase := hInv lid' M hM sid' S hS
              constructor
              · intro hatt
                exact Finset.mem_erase_of_ne_of_mem hl (hbase.mp hatt)
              · intro hmem
                exact hbase.mpr (Finset.mem_of_mem_erase hmem)
            · rw [if_neg hs] at hT
              exact hInv lid' M hM sid' T hT
    · have hactf : ListenerInterface._is_active L = false := by simpa using hact
      rw [unsubscribe_inactive_eq w lid L hL hactf] at h
      injection h with h
      subst h
      apply invariant_setListener_same_attach w lid L ⟨false, none, L.callback⟩ hL ?_ hInv
      rw [attachedSignal_eq_none L hactf]
      rfl

/-- After a successful `unsubscribe`, the listener's own state is the
canonical detached one (only its callback survives). -/
theorem unsubscribe_listener_at (w : World) (lid : Nat) (w1 : World)
    (h : ListenerInterface.unsubscribe w lid = some w1) :
    ∃ cb, w1.listeners lid = some ⟨false, none, cb⟩ := by
  cases hL : w.listeners lid with
  | none => exact absurd h (by simp [ListenerInterface.unsubscribe, hL])
  | some L =>
    by_cases hact : ListenerInterface._is_active L = true
    · cases hsig : L.signal with
      | none =>
        have hf : ListenerInterface._is_active L = false := by
          unfold ListenerInterface._is_active
          rw [hsig]
          simp
        rw [hf] at hact
        cases hact
      | some sid =>
        have hLact : L.active = true := by
          unfold ListenerInterface._is_active at hact
          rw [hsig] at hact
          simpa using hact
        cases hS : w.signals sid with
        | none =>
          exact absurd h
            (by simp [ListenerInterface.unsubscribe, hL, hact, hsig, hS])
        | some S =>
          rw [unsubscribe_active_eq w lid L sid S hL hLact hsig hS] at h
          injection h with h
          subst h
          exact ⟨L.callback, by simp⟩
    · have hactf : ListenerInterface._is_active L = false := by simpa using hact
      rw [unsubscribe_inactive_eq w lid L hL hactf] at h
      injection h with h
      subst h
      exact ⟨L.callback, by simp⟩

/-- `Slot` destruction (unsubscribe, null the callback, deallocate)
preserves the attachment-symmetry invariant. -/
theorem inv_slot_destroy (w : World) (hInv : Invariant w) (lid : Nat) (w' : World)
    (h : Slot.destroy w lid = some w') : Invariant w' := by
  unfold Slot.destroy at h
  cases hc : Slot.clear w lid with
  | none =>
    rw [hc] at h
    cases h
  | some w2 =>
    rw [hc, Option.map_some'] at h
    injection h with h
    subst h
    have hw2 : Invariant w2 := by
      unfold Slot.clear at hc
      cases hu : ListenerInterface.unsubscribe w lid with
      | none =>
        rw [hu] at hc
        cases hc
      | some w1 =>
        rw [hu, Option.map_some'] at hc
        injection hc with hc
        obtain ⟨cb, hcb⟩ := unsubscribe_listener_at w lid w1 hu
        have hw1 : Invariant w1 := inv_unsubscribe w hInv lid w1 hu
        have hc2 : w2 = w1.setListener lid ⟨false, none, none⟩ := by
          rw [← hc, hcb]
        rw [hc2]
        exact invariant_setListener_same_attach w1 lid ⟨false, none, cb⟩
          ⟨false, none, none⟩ hcb rfl hw1
    exact invariant_killListener w2 lid hw2

/-- `Signal::clear` preserves the attachment-symmetry invariant. -/
theorem inv_clear (w : World) (hInv : Invariant w) (sid : Nat) (w' : World)
    (h : Signal.clear w sid = some w') : Invariant w' := by
  cases hS : w.signals sid with
  | none => exact absurd h (by simp [Signal.clear, hS])
  | some S =>
    by_cases hall : ∀ l ∈ S.slots, (w.listeners l).isSome
    · obtain ⟨wc, hclear, hsigL, hlisL⟩ := clear_eq w sid S hS hall
      rw [hclear] at h
      injection h with h
      subst h
      intro lid' M hM sid' T hT
      rw [hlisL lid'] at hM
      rw [hsigL sid'] at hT
      by_cases hmem : lid' ∈ S.slots
      · rw [if_pos hmem] at hM
        cases hL0 : w.listeners lid' with
        | none =>
          rw [hL0] at hM
          cases hM
        | some L0 =>
          rw [hL0] at hM
          injection hM with hM
          subst hM
          have hatt0 : L0.attachedSignal = some sid :=
            (hInv lid' L0 hL0 sid S hS).mpr hmem
          constructor
          · intro hatt
            exfalso
            simp [ListenerState.attachedSignal] at hatt
          · intro hmemT
            exfalso
            by_cases hs : sid' = sid
            · subst hs
              rw [if_pos rfl] at hT
              injection hT with hT
              subst hT
              exact absurd hmemT (Finset.not_mem_empty lid')
            · rw [if_neg hs] at hT
              have h2 := (hInv lid' L0 hL0 sid' T hT).mpr hmemT
              rw [hatt0] at h2
              injection h2 with h2
              exact hs h2.symm
      · rw [if_neg hmem] at hM
        by_cases hs : sid' = sid
        · subst hs
          rw [if_pos rfl] at hT
          injection hT with hT
          subst hT
          have hbase := hInv lid' M hM sid' S hS
          constructor
          · intro hatt
            exact absurd (hbase.mp hatt) hmem
          · intro habs
            exact absurd habs (Finset.not_mem_empty lid')
        · rw [if_neg hs] at hT
          exact hInv lid' M hM sid' T hT
    · exact absurd h (by simp [Signal.clear, hS, hall])

/-- `Signal` destruction preserves the attachment-symmetry invariant. -/
theorem inv_signal_destroy (w : World) (hInv : Invariant w) (sid : Nat) (w' : World)
    (h : Signal.destroy w sid = some w') : Invariant w' := by
  unfold Signal.destroy at h
  cases hc : Signal.clear w sid with
  | none =>
    rw [hc] at h
    cases h
  | some wc =>
    rw [hc, Option.map_some'] at h
    injection h with h
    subst h
    exact invariant_killSignal wc sid (inv_clear w hInv sid wc hc)

/-- The attachment-symmetry invariant holds in the concrete heap `wFree`. -/
theorem invariant_wFree : Invariant wFree := by
  intro lid L hL sid S hS
  simp only [wFree, tbl2] at hL hS
  split at hL
  · next h0 =>
    cases hL
    split at hS
    · next hs0 =>
      cases hS
      subst h0
      subst hs0
      decide
    · next hs0 =>
      split at hS
      · next hs1 => cases hS
      · next hs1 => cases hS
  · next h0 =>
    split at hL
    · next => cases hL
    · next => cases hL

end InvariantPreservation

/-- Counterexample to claim C1: the biconditional is NOT preserved by every
mutating operation.  `wPair` satisfies it; after the explicit copy
`Signal.copy wPair 1 0` (signal 1 copies signal 0's subscriber set),
listener 0 is in signal 1's subscriber set while its attached signal is
still signal 0 — the invariant is broken. -/
theorem C1_counterexample :
    Invariant wPair
    ∧ (∃ w', Signal.copy wPair 1 0 = some w' ∧ ¬ Invariant w') := by
  refine ⟨invariant_wPair, wPair.setSignal 1 ⟨{0}, 0⟩, rfl, ?_⟩
  intro hbad
  have h2 := hbad 0 ⟨true, some 0, some 5⟩ rfl 1 ⟨{0}, 0⟩ rfl
  have h3 := h2.mpr (by decide)
  simp [ListenerState.attachedSignal] at h3

/-- Amended claim C1: the attachment-symmetry biconditional is an invariant
of `subscribe` from a detached state, of `unsubscribe`, of listener
destruction, and of signal clear/destruction; it is NOT preserved by
`Signal::copy` (see the counterexample) nor by subscribing while attached
to a different signal. -/
theorem C1_amended_invariant_preservation (w : World) (hInv : Invariant w) :
    (∀ (lid sid : Nat) (L : ListenerState) (w' : World),
        w.listeners lid = some L → L.attachedSignal = none →
        ListenerInterface.subscribe w lid sid = some w' → Invariant w')
    ∧ (∀ (lid : Nat) (w' : World),
        ListenerInterface.unsubscribe w lid = some w' → Invariant w')
    ∧ (∀ (lid : Nat) (w' : World), Slot.destroy w lid = some w' → Invariant w')
    ∧ (∀ (sid : Nat) (w' : World), Signal.clear w sid = some w' → Invariant w')
    ∧ (∀ (sid : Nat) (w' : World), Signal.destroy w sid = some w' → Invariant w') :=
  ⟨fun lid sid L w' hL hdet h => inv_subscribe_detached w hInv lid sid L hL hdet w' h,
   fun lid w' h => inv_unsubscribe w hInv lid w' h,
   fun lid w' h => inv_slot_destroy w hInv lid w' h,
   fun sid w' h => inv_clear w hInv sid w' h,
   fun sid w' h => inv_signal_destroy w hInv sid w' h⟩

/-- Witness for the amended C1 at the concrete heap `wFree`. -/
theorem C1_witness :
    Invariant wFree
    ∧ ((∀ (lid sid : Nat) (L : ListenerState) (w' : World),
          wFree.listeners lid = some L → L.attachedSignal = none →
          ListenerInterface.subscribe wFree lid sid = some w' → Invariant w')
      ∧ (∀ (lid : Nat) (w' : World),
          ListenerInterface.unsubscribe wFree lid = some w' → Invariant w')
      ∧ (∀ (lid : Nat) (w' : World), Slot.destroy wFree lid = some w' → Invariant w')
      ∧ (∀ (sid : Nat) (w' : World), Signal.clear wFree sid = some w' → Invariant w')
      ∧ (∀ (sid : Nat) (w' : World), Signal.destroy wFree sid = some w' → Invariant w')) :=
  ⟨invariant_wFree, C1_amended_invariant_preservation wFree invariant_wFree⟩

end Siglot
